import Mathlib

/-
  Verification of the open-hydro decision core against its specification.

  The development shallowly embeds the decision-relevant parts of the
  repository in Lean:
    * `app/actuators.py`  — dosing safety checks and fan/LED clamping,
    * `app/rules.py`      — the rules engine, its gates and the
                            stable-unless-better filter,
    * `app/memory/kpis.py`— in-spec scoring, health score, trend slope,
    * `scripts/control_loop.py` — the decision combination step.

  Python floats are modelled as rationals (`ℚ`); Python's `round(x, n)`
  (round-half-to-even) is modelled exactly on rationals by `rhe`.
  Optional / absent dictionary entries are modelled with `Option`;
  `dict.get(k, d)` becomes `Option.getD`.  Wall-clock timestamps
  (`datetime.utcnow()`) are passed in explicitly as a natural number of
  days, so every embedded operation is a pure function of its inputs.
-/

/-- Round-half-to-even to an integer, the rounding mode of Python's
builtin `round` (exact on rationals). -/
def rhe (q : ℚ) : ℤ :=
  let f := ⌊q⌋
  let r := q - f
  if r < 1/2 then f
  else if 1/2 < r then f + 1
  else if f % 2 = 0 then f else f + 1

/-- Python `round(x, 1)` on rationals. -/
def round1 (q : ℚ) : ℚ := (rhe (q * 10) : ℚ) / 10

/-- Python `round(x, 3)` on rationals. -/
def round3 (q : ℚ) : ℚ := (rhe (q * 1000) : ℚ) / 1000

/-! ## Safety limits (`app/actuators.py`, `ActuatorController`) -/

/-- Structured reason of a dosing-safety verdict.  The Python code builds
a reason string; we keep the interpolated quantities, which determine the
string. -/
inductive DoseReason
  | singleDoseExceeded (ml maxSingle : ℚ)
  | dailyLimitExceeded (total limit : ℚ)
  | withinLimits
deriving DecidableEq

/-- The `{"safe": bool, "reason": str}` dictionary returned by
`_check_dosing_safety`. -/
structure SafetyVerdict where
  safe : Bool
  reason : DoseReason
deriving DecidableEq

/-- `ActuatorController.SAFETY_LIMITS` lookup `SAFETY_LIMITS.get(f"{pump}_max_ml", 50)`
with the refill special case: the dictionary holds `pump_a_max_ml = 50`,
`pump_b_max_ml = 50`, `ph_pump_max_ml = 20`, `refill_max_ml = 1000`,
default `50` for unknown keys. -/
def safety_limit_max_ml (pump_name : String) : ℚ :=
  if pump_name = "refill" then 1000
  else if pump_name = "pump_a" then 50
  else if pump_name = "pump_b" then 50
  else if pump_name = "ph_pump" then 20
  else 50

/-- `SAFETY_LIMITS["daily_dose_limit"]`. -/
def daily_dose_limit : ℚ := 200

/-- `ActuatorController._check_dosing_safety(pump_name, ml_amount)`.
`daily_doses` is the controller's daily-dose ledger, read via
`self.daily_doses.get(pump_name, 0)` (absent pumps read as 0). -/
def check_dosing_safety (pump_name : String) (ml_amount : ℚ)
    (daily_doses : String → ℚ) : SafetyVerdict :=
  let max_single_dose := safety_limit_max_ml pump_name
  if ml_amount > max_single_dose then
    { safe := false, reason := .singleDoseExceeded ml_amount max_single_dose }
  else if pump_name ≠ "refill" then
    let daily_total := daily_doses pump_name + ml_amount
    if daily_total > daily_dose_limit then
      { safe := false, reason := .dailyLimitExceeded daily_total daily_dose_limit }
    else { safe := true, reason := .withinLimits }
  else { safe := true, reason := .withinLimits }

/-- `RulesEngine._is_dosage_safe(pump_type, dosage_ml)` with the default
safety limits (`max_single_dose_ml = 50`; the pH pump is capped at
`min(50, 20) = 20`): `return 0 < dosage_ml <= max_single`. -/
def is_dosage_safe (pump_type : String) (dosage_ml : ℚ) : Bool :=
  let max_single : ℚ := 50
  let max_single := if pump_type = "ph_pump" then min max_single 20 else max_single
  decide (0 < dosage_ml ∧ dosage_ml ≤ max_single)

/-! ## KPI scoring (`app/memory/kpis.py`, `KPICalculator`) -/

/-- `KPICalculator._is_in_range(value, min_val, max_val)`: compliance
score in `[0,1]`; a missing value scores 0. -/
def is_in_range (value : Option ℚ) (min_val max_val : ℚ) : ℚ :=
  match value with
  | none => 0
  | some v =>
    if min_val ≤ v ∧ v ≤ max_val then 1
    else
      let deviation := if v < min_val then (min_val - v) / min_val
                       else (v - max_val) / max_val
      max 0 (1 - deviation * 2)

/-- The `water` part of a sensor reading (only the fields the decision
core reads). -/
structure Water where
  ph : Option ℚ := none
  ec : Option ℚ := none
deriving DecidableEq

/-- The `air` part of a sensor reading. -/
structure Air where
  temperature : Option ℚ := none
  humidity : Option ℚ := none
  co2 : Option ℚ := none
deriving DecidableEq

/-- The `light` part of a sensor reading. -/
structure Light where
  lux : Option ℚ := none
deriving DecidableEq

/-- A sensor reading as consumed by the decision core; every field is
optional (partial readings are legal). -/
structure SensorData where
  water : Water := {}
  air : Air := {}
  light : Light := {}
deriving DecidableEq

/-- The target-range dictionary taken by `calculate_current_kpis`. -/
structure TargetRanges where
  ph_min : ℚ
  ph_max : ℚ
  ec_min : ℚ
  ec_max : ℚ
  temp_min : ℚ
  temp_max : ℚ
  humidity_min : ℚ
  humidity_max : ℚ
  co2_min : ℚ
  co2_max : ℚ
deriving DecidableEq

/-- The default target ranges of `calculate_current_kpis`. -/
def defaultTargetRanges : TargetRanges :=
  { ph_min := 5.5, ph_max := 6.5, ec_min := 1.2, ec_max := 2.0,
    temp_min := 18, temp_max := 26, humidity_min := 50, humidity_max := 70,
    co2_min := 400, co2_max := 1200 }

/-- The weighted health-score sum of `calculate_current_kpis` before
rounding: `sum(score * weight for score, weight in health_components)`. -/
def health_score_raw (s : SensorData) (t : TargetRanges) : ℚ :=
  is_in_range s.water.ph t.ph_min t.ph_max * 0.3
  + is_in_range s.water.ec t.ec_min t.ec_max * 0.25
  + is_in_range s.air.temperature t.temp_min t.temp_max * 0.2
  + is_in_range s.air.humidity t.humidity_min t.humidity_max * 0.15
  + is_in_range s.air.co2 t.co2_min t.co2_max * 0.1

/-- The `health_score` field returned by `calculate_current_kpis`:
`round(health_score, 3)`. -/
def health_score (s : SensorData) (t : TargetRanges) : ℚ :=
  round3 (health_score_raw s t)

/-! ## Trend classification (`KPICalculator._calculate_trend`) -/

/-- The least-squares slope computed by `_calculate_trend`:
`(n*xy_sum - x_sum*y_sum) / (n*x2_sum - x_sum*x_sum)` over the index
sequence `0..n-1` versus `values`. -/
def ols_slope (values : List ℚ) : ℚ :=
  let n : ℚ := values.length
  let x_sum : ℚ := ((List.range values.length).map (fun i => (i : ℚ))).sum
  let y_sum : ℚ := values.sum
  let xy_sum : ℚ := (values.enum.map (fun p => (p.1 : ℚ) * p.2)).sum
  let x2_sum : ℚ := ((List.range values.length).map (fun i => (i : ℚ) * (i : ℚ))).sum
  (n * xy_sum - x_sum * y_sum) / (n * x2_sum - x_sum * x_sum)

/-- `KPICalculator._calculate_trend(values)`. -/
def calculate_trend (values : List ℚ) : String :=
  if values.length < 2 then "stable"
  else
    let slope := ols_slope values
    if |slope| < 0.01 then "stable"
    else if slope > 0 then "increasing"
    else "decreasing"

/-! ## Actuator clamping (`ActuatorController.control_fan` / `control_led`) -/

/-- The mutable fan/LED fields of `ActuatorController.states`. -/
structure ActuatorStates where
  fan_speed : ℤ
  led_power : ℤ
deriving DecidableEq

/-- `control_fan`: `speed_percent = max(0, min(100, speed_percent))`, then
the clamped value is written to the PWM output and to `states`. -/
def control_fan (speed_percent : ℤ) (st : ActuatorStates) : ActuatorStates :=
  let speed := max 0 (min 100 speed_percent)
  { st with fan_speed := speed }

/-- `control_led`: `power_percent = max(0, min(100, power_percent))`, then
the clamped value is written to the PWM output and to `states`. -/
def control_led (power_percent : ℤ) (st : ActuatorStates) : ActuatorStates :=
  let power := max 0 (min 100 power_percent)
  { st with led_power := power }

/-! ## Supporting lemmas -/

theorem floor_le_rhe (q : ℚ) : ⌊q⌋ ≤ rhe q := by
  simp only [rhe]
  split_ifs <;> omega

theorem rhe_le_floor_add_one (q : ℚ) : rhe q ≤ ⌊q⌋ + 1 := by
  simp only [rhe]
  split_ifs <;> omega

theorem rhe_mono {a b : ℚ} (h : a ≤ b) : rhe a ≤ rhe b := by
  rcases lt_or_eq_of_le (Int.floor_le_floor h) with hf | hf
  · calc rhe a ≤ ⌊a⌋ + 1 := rhe_le_floor_add_one a
      _ ≤ ⌊b⌋ := by omega
      _ ≤ rhe b := floor_le_rhe b
  · have hc : ((⌊a⌋ : ℚ)) = ((⌊b⌋ : ℚ)) := by rw [hf]
    have hr : a - (⌊a⌋ : ℚ) ≤ b - (⌊b⌋ : ℚ) := by rw [hc]; linarith
    simp only [rhe, hf] at hr ⊢
    split_ifs <;> first | omega | linarith

theorem rhe_intCast (n : ℤ) : rhe ((n : ℚ)) = n := by
  simp only [rhe, Int.floor_intCast, sub_self]
  norm_num

/-- Evaluation of `rhe` when `q` lies in the lower half of its unit
interval. -/
theorem rhe_down {q : ℚ} {n : ℤ} (h1 : (n : ℚ) ≤ q) (h2 : q < (n : ℚ) + 1/2) :
    rhe q = n := by
  have hf : ⌊q⌋ = n := Int.floor_eq_iff.mpr ⟨h1, by linarith⟩
  simp only [rhe, hf]
  rw [if_pos (by linarith)]

/-- Evaluation of `rhe` when `q` lies in the upper half of its unit
interval. -/
theorem rhe_up {q : ℚ} {n : ℤ} (h1 : (n : ℚ) + 1/2 < q) (h2 : q < (n : ℚ) + 1) :
    rhe q = n + 1 := by
  have hf : ⌊q⌋ = n := Int.floor_eq_iff.mpr ⟨by linarith, by linarith⟩
  simp only [rhe, hf]
  rw [if_neg (by linarith), if_pos (by linarith)]

theorem round3_mono {a b : ℚ} (h : a ≤ b) : round3 a ≤ round3 b := by
  unfold round3
  have h1 : a * 1000 ≤ b * 1000 := by linarith
  have h2 : (rhe (a * 1000) : ℚ) ≤ (rhe (b * 1000) : ℚ) := by
    exact_mod_cast rhe_mono h1
  linarith

theorem is_in_range_le_one (v : Option ℚ) (mn mx : ℚ)
    (hmn : 0 < mn) (hmx : 0 < mx) : is_in_range v mn mx ≤ 1 := by
  cases v with
  | none => norm_num [is_in_range]
  | some x =>
    simp only [is_in_range]
    split_ifs with h1 h2
    · exact le_refl 1
    · have hdev : 0 ≤ (mn - x) / mn := div_nonneg (by linarith) (le_of_lt hmn)
      exact max_le (by norm_num) (by linarith)
    · have hx : mx < x := by
        by_contra hle
        exact h1 ⟨le_of_not_lt h2, le_of_not_lt hle⟩
      have hdev : 0 ≤ (x - mx) / mx := div_nonneg (by linarith) (le_of_lt hmx)
      exact max_le (by norm_num) (by linarith)


/-- Evaluation of the single-dose ceiling at `pump_a`. -/
theorem safety_limit_max_ml_pump_a : safety_limit_max_ml "pump_a" = 50 := by
  unfold safety_limit_max_ml
  rw [if_neg (by decide), if_pos rfl]

/-! ## Claim C1 -/

/-- C1 counterexample: at pump `pump_a`, dose `ml = 0` and an empty daily
ledger, `_check_dosing_safety` returns `safe = true`, refuting the claim
that the actuator-level safety check returns `safe = false` for every
`ml ≤ 0`. -/
theorem c1_zero_ml_safe_true_counterexample :
    (check_dosing_safety "pump_a" 0 (fun _ => 0)).safe = true := by
  simp only [check_dosing_safety, safety_limit_max_ml_pump_a]
  rw [if_neg (by norm_num), if_pos (by decide),
    if_neg (by norm_num [daily_dose_limit])]

/-- C1 (amended): for every pump and `ml ≤ 0`, the rules-engine dosing
guard `_is_dosage_safe` returns `false` (so no rule-proposed dose with
`ml ≤ 0` is ever emitted), while `_check_dosing_safety` does not reject
`ml ≤ 0`: it returns `safe = true` whenever the cumulative daily total
stays within the daily limit. -/
theorem c1_nonpositive_dose_amended (pump : String) (ml : ℚ)
    (ledger : String → ℚ) (hml : ml ≤ 0) :
    is_dosage_safe pump ml = false ∧
    (ledger pump + ml ≤ daily_dose_limit →
      (check_dosing_safety pump ml ledger).safe = true) := by
  constructor
  · simp only [is_dosage_safe, decide_eq_false_iff_not, not_and, not_le]
    intro h0
    exact absurd h0 (not_lt.mpr hml)
  · intro hled
    have hpos : (0 : ℚ) < safety_limit_max_ml pump := by
      simp only [safety_limit_max_ml]
      split_ifs <;> norm_num
    simp only [check_dosing_safety]
    split_ifs with h1 h2 h3
    · exact absurd h1 (not_lt.mpr (le_trans hml (le_of_lt hpos)))
    · exact absurd h3 (not_lt.mpr hled)
    · rfl
    · rfl

/-- C1 amended witness at `pump_a`, `ml = -5`, empty ledger. -/
theorem c1_nonpositive_dose_amended_witness :
    is_dosage_safe "pump_a" (-5) = false ∧
    (check_dosing_safety "pump_a" (-5) (fun _ => 0)).safe = true := by
  have h := c1_nonpositive_dose_amended "pump_a" (-5) (fun _ => 0) (by norm_num)
  exact ⟨h.1, h.2 (by norm_num [daily_dose_limit])⟩

/-! ## Claim C4 -/

/-- C4: for every pump other than `refill`, every ledger, and every dose
`ml` within the single-dose ceiling, a cumulative total
`ledger[pump] + ml > 200` yields `safe = false` with the daily-limit
reason; and the single-dose check takes precedence — whenever `ml`
exceeds the single-dose ceiling the verdict carries the single-dose
reason regardless of the ledger.  The embedded function is total, so a
structured verdict is returned on every input. -/
theorem c4_daily_limit (pump : String) (ml : ℚ) (ledger : String → ℚ) :
    (pump ≠ "refill" → ml ≤ safety_limit_max_ml pump →
      ledger pump + ml > daily_dose_limit →
      check_dosing_safety pump ml ledger =
        { safe := false,
          reason := .dailyLimitExceeded (ledger pump + ml) daily_dose_limit }) ∧
    (ml > safety_limit_max_ml pump →
      check_dosing_safety pump ml ledger =
        { safe := false,
          reason := .singleDoseExceeded ml (safety_limit_max_ml pump) }) := by
  constructor
  · intro hpump hsingle hdaily
    simp only [check_dosing_safety]
    split_ifs with h1
    · exact absurd h1 (not_lt.mpr hsingle)
    · rfl
  · intro hover
    simp only [check_dosing_safety]
    split_ifs
    rfl

/-- C4 witness: `pump_a`, 10 ml against a ledger at 195 ml → daily-limit
refusal; `pump_a`, 100 ml → single-dose refusal. -/
theorem c4_daily_limit_witness :
    check_dosing_safety "pump_a" 10 (fun _ => 195) =
      { safe := false, reason := .dailyLimitExceeded 205 200 } ∧
    check_dosing_safety "pump_a" 100 (fun _ => 195) =
      { safe := false, reason := .singleDoseExceeded 100 50 } := by
  constructor
  · have h := (c4_daily_limit "pump_a" 10 (fun _ => 195)).1
      (by decide) (by rw [safety_limit_max_ml_pump_a]; norm_num)
      (by norm_num [daily_dose_limit])
    rw [h]
    norm_num [daily_dose_limit]
  · have h := (c4_daily_limit "pump_a" 100 (fun _ => 195)).2
      (by rw [safety_limit_max_ml_pump_a]; norm_num)
    rw [h]
    rw [safety_limit_max_ml_pump_a]

/-! ## Claim C6 -/

/-- C6: the in-spec score is exactly 1 inside `[min, max]`; below the
range it is `max 0 (1 - 2*(min-value)/min)`, above it is
`max 0 (1 - 2*(value-max)/max)`; a 50% relative deviation (for example
`value = min/2`) drives the score to 0. -/
theorem c6_in_spec_score (v mn mx : ℚ) (hmn : 0 < mn) (hmx : 0 < mx)
    (hr : mn ≤ mx) :
    (mn ≤ v ∧ v ≤ mx → is_in_range (some v) mn mx = 1) ∧
    (v < mn → is_in_range (some v) mn mx = max 0 (1 - 2 * ((mn - v) / mn))) ∧
    (mx < v → is_in_range (some v) mn mx = max 0 (1 - 2 * ((v - mx) / mx))) ∧
    is_in_range (some (mn / 2)) mn mx = 0 := by
  refine ⟨?_, ?_, ?_, ?_⟩
  · intro h
    simp only [is_in_range]
    rw [if_pos h]
  · intro h
    simp only [is_in_range]
    rw [if_neg (by rintro ⟨h1, -⟩; exact absurd h (not_lt.mpr h1)),
      if_pos h]
    ring_nf
  · intro h
    simp only [is_in_range]
    rw [if_neg (by rintro ⟨-, h2⟩; exact absurd h (not_lt.mpr h2)),
      if_neg (show ¬ v < mn by linarith)]
    ring_nf
  · simp only [is_in_range]
    have hlt : mn / 2 < mn := by linarith
    rw [if_neg (by rintro ⟨h1, -⟩; exact absurd hlt (not_lt.mpr h1)),
      if_pos hlt]
    have hdev : (mn - mn / 2) / mn * 2 = 1 := by
      have h0 : mn ≠ 0 := ne_of_gt hmn
      field_simp
      ring
    rw [hdev]
    norm_num

/-- C6 witness at the pH target range `[5.5, 6.5]`: score 1 inside, the
linear-decay formula below and above, and score 0 at a 50% deviation. -/
theorem c6_in_spec_score_witness :
    is_in_range (some 6) 5.5 6.5 = 1 ∧
    is_in_range (some 5) 5.5 6.5 = max 0 (1 - 2 * ((5.5 - 5) / 5.5)) ∧
    is_in_range (some 7) 5.5 6.5 = max 0 (1 - 2 * ((7 - 6.5) / 6.5)) ∧
    is_in_range (some (5.5 / 2)) 5.5 6.5 = 0 := by
  have h6 := c6_in_spec_score 6 5.5 6.5 (by norm_num) (by norm_num) (by norm_num)
  have h5 := c6_in_spec_score 5 5.5 6.5 (by norm_num) (by norm_num) (by norm_num)
  have h7 := c6_in_spec_score 7 5.5 6.5 (by norm_num) (by norm_num) (by norm_num)
  exact ⟨h6.1 (by norm_num), h5.2.1 (by norm_num), h7.2.2.1 (by norm_num),
    h6.2.2.2⟩

/-! ## Claim C7 -/

/-- Concrete slope evaluations used for the C7 anchors. -/
theorem ols_slope_anchor_evals :
    ols_slope [1, 2, 3] = 1 ∧ ols_slope [3, 2, 1] = -1 ∧
    ols_slope [1, 1, 1] = 0 := by
  have e1 : ([1, 2, 3] : List ℚ).length = 3 := rfl
  have e2 : List.range 3 = [0, 1, 2] := rfl
  have e3 : ([1, 2, 3] : List ℚ).enum = [(0, (1 : ℚ)), (1, 2), (2, 3)] := rfl
  have e1b : ([3, 2, 1] : List ℚ).length = 3 := rfl
  have e3b : ([3, 2, 1] : List ℚ).enum = [(0, (3 : ℚ)), (1, 2), (2, 1)] := rfl
  have e1c : ([1, 1, 1] : List ℚ).length = 3 := rfl
  have e3c : ([1, 1, 1] : List ℚ).enum = [(0, (1 : ℚ)), (1, 1), (2, 1)] := rfl
  refine ⟨?_, ?_, ?_⟩ <;>
    · simp only [ols_slope, e1, e2, e3, e1b, e3b, e1c, e3c, List.map_cons,
        List.map_nil, List.sum_cons, List.sum_nil]
      norm_num

/-- C7: for every list of at least two values the classifier applies the
least-squares slope with a ±0.01 dead band (`stable` when
`|slope| < 0.01`, `increasing` when `slope ≥ 0.01`, `decreasing` when
`slope ≤ -0.01`), and the three anchor evaluations hold exactly. -/
theorem c7_trend_classification :
    (∀ values : List ℚ, 2 ≤ values.length →
      (|ols_slope values| < 0.01 → calculate_trend values = "stable") ∧
      (0.01 ≤ ols_slope values → calculate_trend values = "increasing") ∧
      (ols_slope values ≤ -0.01 → calculate_trend values = "decreasing")) ∧
    calculate_trend [1, 2, 3] = "increasing" ∧
    calculate_trend [3, 2, 1] = "decreasing" ∧
    calculate_trend [1, 1, 1] = "stable" := by
  have hmain : ∀ values : List ℚ, 2 ≤ values.length →
      (|ols_slope values| < 0.01 → calculate_trend values = "stable") ∧
      (0.01 ≤ ols_slope values → calculate_trend values = "increasing") ∧
      (ols_slope values ≤ -0.01 → calculate_trend values = "decreasing") := by
    intro values hlen
    have hnot : ¬ values.length < 2 := by omega
    refine ⟨?_, ?_, ?_⟩
    · intro h
      simp only [calculate_trend]
      rw [if_neg hnot, if_pos h]
    · intro h
      simp only [calculate_trend]
      rw [if_neg hnot,
        if_neg (not_lt.mpr (le_trans h (le_abs_self _))),
        if_pos (lt_of_lt_of_le (by norm_num) h)]
    · intro h
      simp only [calculate_trend]
      have habs : (0.01 : ℚ) ≤ |ols_slope values| :=
        le_trans (by linarith) (neg_le_abs _)
      rw [if_neg hnot, if_neg (not_lt.mpr habs),
        if_neg (not_lt.mpr (le_trans h (by norm_num)))]
  obtain ⟨s1, s2, s3⟩ := ols_slope_anchor_evals
  refine ⟨hmain, ?_, ?_, ?_⟩
  · exact (hmain [1, 2, 3] (by norm_num)).2.1 (by rw [s1]; norm_num)
  · exact (hmain [3, 2, 1] (by norm_num)).2.2 (by rw [s2]; norm_num)
  · exact (hmain [1, 1, 1] (by norm_num)).1 (by rw [s3]; norm_num)

/-- C7 witness: the dead band and both slope signs at concrete lists,
obtained by instantiating the classification theorem. -/
theorem c7_trend_classification_witness :
    calculate_trend [1, 1, 1] = "stable" ∧
    calculate_trend [1, 2, 3] = "increasing" ∧
    calculate_trend [3, 2, 1] = "decreasing" := by
  obtain ⟨s1, s2, s3⟩ := ols_slope_anchor_evals
  refine ⟨?_, ?_, ?_⟩
  · exact (c7_trend_classification.1 [1, 1, 1] (by norm_num)).1
      (by rw [s3]; norm_num)
  · exact (c7_trend_classification.1 [1, 2, 3] (by norm_num)).2.1
      (by rw [s1]; norm_num)
  · exact (c7_trend_classification.1 [3, 2, 1] (by norm_num)).2.2
      (by rw [s2]; norm_num)

/-! ## Claim C9 -/

/-- The implicit actuator-state invariant: fan and LED percentages stay
in `[0, 100]`. -/
def actuator_invariant (st : ActuatorStates) : Prop :=
  0 ≤ st.fan_speed ∧ st.fan_speed ≤ 100 ∧ 0 ≤ st.led_power ∧ st.led_power ≤ 100

/-- C9: `control_fan` and `control_led` clamp every requested percentage
to `[0, 100]` before applying it, leave the other channel untouched, and
therefore preserve the actuator-state invariant; requested values 150
and -20 are applied as 100 and 0. -/
theorem c9_clamp_preserves_invariant (s p : ℤ) (st : ActuatorStates) :
    (control_fan s st).fan_speed = max 0 (min 100 s) ∧
    (control_led p st).led_power = max 0 (min 100 p) ∧
    (control_fan s st).led_power = st.led_power ∧
    (control_led p st).fan_speed = st.fan_speed ∧
    (0 ≤ (control_fan s st).fan_speed ∧ (control_fan s st).fan_speed ≤ 100) ∧
    (0 ≤ (control_led p st).led_power ∧ (control_led p st).led_power ≤ 100) ∧
    (0 ≤ st.led_power ∧ st.led_power ≤ 100 →
      actuator_invariant (control_fan s st)) ∧
    (0 ≤ st.fan_speed ∧ st.fan_speed ≤ 100 →
      actuator_invariant (control_led p st)) ∧
    (control_fan 150 st).fan_speed = 100 ∧
    (control_fan (-20) st).fan_speed = 0 := by
  have h0 : ∀ x : ℤ, 0 ≤ max 0 (min 100 x) := fun x => le_max_left 0 _
  have h100 : ∀ x : ℤ, max 0 (min 100 x) ≤ 100 :=
    fun x => max_le (by norm_num) (min_le_left _ _)
  refine ⟨rfl, rfl, rfl, rfl, ⟨h0 s, h100 s⟩, ⟨h0 p, h100 p⟩, ?_, ?_, ?_, ?_⟩
  · intro hl
    exact ⟨h0 s, h100 s, hl.1, hl.2⟩
  · intro hf
    exact ⟨hf.1, hf.2, h0 p, h100 p⟩
  · show max 0 (min 100 150) = 100
    decide
  · show max 0 (min 100 (-20)) = 0
    decide

/-- C9 witness: requested 150 and -20 on a valid state. -/
theorem c9_clamp_preserves_invariant_witness :
    actuator_invariant (control_fan 150 { fan_speed := 0, led_power := 50 }) ∧
    actuator_invariant (control_led (-20) { fan_speed := 0, led_power := 50 }) := by
  have h := c9_clamp_preserves_invariant 150 (-20)
    { fan_speed := 0, led_power := 50 }
  exact ⟨h.2.2.2.2.2.2.1 (by norm_num), h.2.2.2.2.2.2.2.1 (by norm_num)⟩

/-! ## Claim C10 -/

/-- C10: a missing (`None`) sensor value scores exactly 0 for every
target range; a reading missing pH, EC and temperature therefore has
`health_score ≤ 0.25` for every humidity/CO2 value (over any target
ranges with positive humidity/CO2 bounds), and 0.25 is below the 0.6
rollback threshold. -/
theorem c10_missing_value_scores_zero (hum co2 : Option ℚ) (t : TargetRanges)
    (hh : 0 < t.humidity_min) (hh2 : 0 < t.humidity_max)
    (hc : 0 < t.co2_min) (hc2 : 0 < t.co2_max) :
    (∀ mn mx : ℚ, is_in_range none mn mx = 0) ∧
    health_score { air := { humidity := hum, co2 := co2 } } t ≤ 0.25 ∧
    (0.25 : ℚ) < 0.6 := by
  refine ⟨fun mn mx => rfl, ?_, by norm_num⟩
  have hz : ∀ mn mx : ℚ, is_in_range none mn mx = 0 := fun _ _ => rfl
  have hraw : health_score_raw { air := { humidity := hum, co2 := co2 } } t
      ≤ 0.25 := by
    have h1 := is_in_range_le_one hum t.humidity_min t.humidity_max hh hh2
    have h2 := is_in_range_le_one co2 t.co2_min t.co2_max hc hc2
    simp only [health_score_raw, hz]
    linarith
  have h25 : round3 (0.25 : ℚ) = 0.25 := by
    rw [round3, show ((0.25 : ℚ) * 1000) = ((250 : ℤ) : ℚ) by norm_num,
      rhe_intCast]
    norm_num
  calc health_score { air := { humidity := hum, co2 := co2 } } t
      ≤ round3 0.25 := round3_mono hraw
    _ = 0.25 := h25

/-- C10 witness: the default target ranges and a perfectly in-spec
humidity/CO2 pair. -/
theorem c10_missing_value_scores_zero_witness :
    is_in_range none 5.5 6.5 = 0 ∧
    health_score { air := { humidity := some 60, co2 := some 800 } }
      defaultTargetRanges ≤ 0.25 := by
  have h := c10_missing_value_scores_zero (some 60) (some 800)
    defaultTargetRanges (by norm_num [defaultTargetRanges])
    (by norm_num [defaultTargetRanges]) (by norm_num [defaultTargetRanges])
    (by norm_num [defaultTargetRanges])
  exact ⟨h.1 5.5 6.5, h.2.1⟩

/-! ## The rules engine (`app/rules.py`, `RulesEngine`)

Narrative strings (`result` / `reason` fields) are f-strings of the
interpolated quantities; we keep them as structured values (`Narr`), one
constructor per message template, which determine the rendered strings. -/

/-- Python `round(x, 2)` on rationals. -/
def round2 (q : ℚ) : ℚ := (rhe (q * 100) : ℚ) / 100

/-- One constructor per narrative template of `rules.py`, carrying the
interpolated quantities. -/
inductive Narr
  | text (s : String)
  | phHighReason (ph target inSpec : ℚ)
  | phLowReason (ph target inSpec : ℚ)
  | phAdjustmentNeeded (reason : Narr)
  | phStable (ph inSpec : ℚ)
  | ecRaise (current target : ℚ)
  | ecIncreaseResult (health inSpec : ℚ)
  | ecExcessiveResult (mlTotal baseline : ℚ)
  | ecReduceTargetReason
  | ecStable (current target inSpec : ℚ)
  | coolingResult (temp limit : ℚ)
  | coolingReason (temp : ℚ)
  | heatingResult (temp limit : ℚ)
  | heatingReason (temp : ℚ)
  | humidityResult (humidity : ℚ)
  | humidityReason (humidity : ℚ)
  | lightResult (lux ec : ℚ)
  | lightStressReason
  | reservoirDue (days maxDays : ℚ) (phase : String)
  | reservoirChangeReason (phase : String) (days : ℚ)
  | reservoirOK (days maxDays : ℚ) (phase : String)
  | freezeNoOp
  | freezeReason (health phInSpec ecInSpec : ℚ)
  | rollbackDegradation (health : ℚ)
  | reducedDose (orig : Narr)
  | slightlyReducedDose (orig : Narr)
  | rulesPrefixed (result : Narr)
deriving DecidableEq

/-- The tagged action dictionaries built by the rule evaluators:
`{"type": "dose", pump: {"ml":…, "reason":…}, …}`, fan / LED control
dictionaries, `{"type": "config_change", "ec_target":…}`, and
`{"type": "reservoir_change"}`. -/
inductive AAction
  | dose (entries : List (String × ℚ × Narr))
  | fanControl (fan_speed : ℤ) (duration_minutes : Option ℚ) (reason : Narr)
  | ledControl (led_power : ℤ) (reason : Narr)
  | configChange (ec_target : ℚ) (reason : Narr)
  | reservoirChange (reason : Narr)
deriving DecidableEq

/-- State of the `"action"` key of a rule finding: absent, present with
Python `None`, present with the string `"none"` (the freeze finding), or
present with an action dictionary. -/
inductive ActionField
  | absent
  | pynone
  | noneStr
  | val (a : AAction)
deriving DecidableEq

/-- One entry of `recommendations["rule_evaluations"]`. -/
structure Finding where
  rule : String
  result : Narr
  ftype : Option String := none
  action : ActionField := .absent
deriving DecidableEq

/-- The dictionary returned by `_check_rollback_required`. -/
structure RollbackStatus where
  required : Bool
  reason : Option Narr
  rollback_to : Option String
deriving DecidableEq

/-- The dictionary returned by `_check_freeze_status`; `freeze_until` is
`utcnow() + 14 days`, modelled with the explicit clock in days. -/
structure FreezeStatus where
  frozen : Bool
  reason : Narr
  freeze_until : Option ℕ
deriving DecidableEq

/-- A value of `recommendations["actions"]`: `None` (the stable-pH
finding's action), an action dictionary, or — in the rollback branch —
the rollback-status dictionary itself. -/
inductive AVal
  | pynone
  | noneStr
  | act (a : AAction)
  | rollback (r : RollbackStatus)
deriving DecidableEq

/-- The 7-day trend dictionary produced by `calculate_7day_trends`,
restricted to the keys the rules engine reads (absent keys are `none`). -/
structure Trends where
  ph_in_spec_7day : Option ℚ := none
  ec_in_spec_7day : Option ℚ := none
  health_7day_avg : Option ℚ := none
  ml_total_7day : Option ℚ := none
deriving DecidableEq

/-- The current-KPI dictionary, restricted to the keys the rules engine
and the stability filter read. -/
structure CurrentKpis where
  health_score : Option ℚ := none
  days_since_reservoir_change : Option ℚ := none
deriving DecidableEq

/-- The configuration dictionary, restricted to the keys the rules
engine reads (each read with `.get(key, default)`). -/
structure Config where
  ph_target : Option ℚ := none
  ec_target : Option ℚ := none
  temp_target : Option ℚ := none
  reservoir_volume_l : Option ℚ := none
  baseline_dosing_ml_per_week : Option ℚ := none
  grow_phase : Option String := none
deriving DecidableEq

/-- `RulesEngine._calculate_ph_down_dosage`. -/
def calculate_ph_down_dosage (cfg : Config) (ph_adjustment : ℚ) : ℚ :=
  let reservoir_volume := cfg.reservoir_volume_l.getD 20
  ph_adjustment / 0.1 * (reservoir_volume / 10)

/-- `RulesEngine._calculate_ph_up_dosage`. -/
def calculate_ph_up_dosage (cfg : Config) (ph_adjustment : ℚ) : ℚ :=
  let reservoir_volume := cfg.reservoir_volume_l.getD 20
  ph_adjustment / 0.1 * (reservoir_volume / 10) * 0.7

/-- `RulesEngine._calculate_nutrient_dosage`. -/
def calculate_nutrient_dosage (cfg : Config) (ec_adjustment : ℚ)
    (increase : Bool) : ℚ :=
  let reservoir_volume := cfg.reservoir_volume_l.getD 20
  let base_dosage := ec_adjustment / 0.1 * 5 * (reservoir_volume / 10)
  if increase then base_dosage else base_dosage * 0.5

/-- `RulesEngine._evaluate_ph_rules`.  All three fall-through paths of
the Python code (in-spec ≥ 90%, small deviation, unsafe dosage) reach
the trailing "pH stable" return, which carries `"action": None`. -/
def evaluate_ph_rules (cfg : Config) (sensor_data : SensorData)
    (trends : Trends) : Option Finding :=
  match sensor_data.water.ph with
  | none => none
  | some current_ph =>
    let ph_target := cfg.ph_target.getD 6.0
    let ph_in_spec_7day := trends.ph_in_spec_7day.getD 100
    let stable : Finding :=
      { rule := "ph_check", result := .phStable current_ph ph_in_spec_7day,
        action := .pynone }
    if ph_in_spec_7day < 0.9 * 100 then
      let ph_deviation := current_ph - ph_target
      if |ph_deviation| > 0.2 then
        let adjustment := min (|ph_deviation| * 0.5) 0.1
        let dosage_ml := if ph_deviation > 0 then
            calculate_ph_down_dosage cfg adjustment
          else calculate_ph_up_dosage cfg adjustment
        let reason := if ph_deviation > 0 then
            Narr.phHighReason current_ph ph_target ph_in_spec_7day
          else Narr.phLowReason current_ph ph_target ph_in_spec_7day
        if is_dosage_safe "ph_pump" dosage_ml then
          some { rule := "ph_adjustment", result := .phAdjustmentNeeded reason,
                 action := .val (.dose [("ph_pump", round1 dosage_ml, reason)]) }
        else some stable
      else some stable
    else some stable

/-- `RulesEngine._evaluate_ec_rules`.  Rule 1 (raise EC) is tried first;
failing any of its guards, rule 2 (excessive dosing → config change) is
tried; the trailing "EC stable" return carries no `"action"` key. -/
def evaluate_ec_rules (cfg : Config) (sensor_data : SensorData)
    (trends : Trends) (current_kpis : CurrentKpis) : Option Finding :=
  match sensor_data.water.ec with
  | none => none
  | some current_ec =>
    let ec_target := cfg.ec_target.getD 1.6
    let ec_in_spec_7day := trends.ec_in_spec_7day.getD 100
    let health_score := current_kpis.health_score.getD 1.0
    let ml_total_7day := trends.ml_total_7day.getD 0
    let rule1 : Option Finding :=
      if ec_in_spec_7day < 0.9 * 100 ∧ health_score < 0.8 then
        if current_ec < ec_target then
          let adjustment := min (ec_target - current_ec) 0.1
          let dosage_ml := calculate_nutrient_dosage cfg adjustment true
          if is_dosage_safe "pump_a" dosage_ml then
            some { rule := "ec_increase",
                   result := .ecIncreaseResult health_score ec_in_spec_7day,
                   action := .val (.dose
                     [("pump_a", round1 (dosage_ml * 0.6),
                       .ecRaise current_ec ec_target),
                      ("pump_b", round1 (dosage_ml * 0.4),
                       .ecRaise current_ec ec_target)]) }
          else none
        else none
      else none
    match rule1 with
    | some f => some f
    | none =>
      let ec_stable : Finding :=
        { rule := "ec_check",
          result := .ecStable current_ec ec_target ec_in_spec_7day,
          action := .absent }
      let baseline_ml := cfg.baseline_dosing_ml_per_week.getD 50
      if ml_total_7day > baseline_ml * (1 + 0.2) then
        if current_ec > ec_target ∧ ec_in_spec_7day > 95 then
          let adjustment := min (current_ec - ec_target) 0.1
          some { rule := "ec_decrease",
                 result := .ecExcessiveResult ml_total_7day baseline_ml,
                 action := .val (.configChange (round2 (ec_target - adjustment))
                   .ecReduceTargetReason) }
        else some ec_stable
      else some ec_stable

/-- `RulesEngine._evaluate_environmental_rules` (the unused
`current_kpis` parameter of the Python signature is dropped).  The
cooling fan speed is `min(80, int((temp - target) * 20)))`; the Python
`int()` truncation equals the floor here because the operand is
positive. -/
def evaluate_environmental_rules (cfg : Config) (sensor_data : SensorData) :
    List Finding :=
  let temp_actions : List Finding :=
    match sensor_data.air.temperature with
    | none => []
    | some current_temp =>
      let temp_target := cfg.temp_target.getD 22
      if current_temp > temp_target + 2.0 then
        [{ rule := "temperature_cooling",
           result := .coolingResult current_temp (temp_target + 2.0),
           ftype := some "fan",
           action := .val (.fanControl
             (min 80 ⌊(current_temp - temp_target) * 20⌋)
             (some 30) (.coolingReason current_temp)) }]
      else if current_temp < temp_target - 2.0 then
        [{ rule := "temperature_heating",
           result := .heatingResult current_temp (temp_target - 2.0),
           ftype := some "environmental",
           action := .val (.fanControl 10 none (.heatingReason current_temp)) }]
      else []
  let humidity_actions : List Finding :=
    match sensor_data.air.humidity with
    | none => []
    | some current_humidity =>
      if current_humidity > 80 then
        [{ rule := "humidity_control",
           result := .humidityResult current_humidity,
           ftype := some "fan",
           action := .val (.fanControl 60 (some 20)
             (.humidityReason current_humidity)) }]
      else []
  let light_actions : List Finding :=
    let current_lux := sensor_data.light.lux.getD 0
    if current_lux > 30000 then
      let current_ec := sensor_data.water.ec.getD 0
      if current_ec > 2.0 then
        [{ rule := "light_stress_prevention",
           result := .lightResult current_lux current_ec,
           ftype := some "led",
           action := .val (.ledControl 70 .lightStressReason) }]
      else []
    else []
  temp_actions ++ humidity_actions ++ light_actions

/-- `RulesEngine._evaluate_reservoir_rules`;
`thresholds['reservoir_change_days']` is `{'GREENS': 14, 'FRUITS': 7}`
read with `.get(grow_phase, 14)`. -/
def evaluate_reservoir_rules (cfg : Config) (current_kpis : CurrentKpis) :
    Option Finding :=
  let days_since_change := current_kpis.days_since_reservoir_change.getD 0
  let grow_phase := cfg.grow_phase.getD "GREENS"
  let max_days : ℚ :=
    if grow_phase = "GREENS" then 14
    else if grow_phase = "FRUITS" then 7
    else 14
  if days_since_change ≥ max_days then
    some { rule := "reservoir_change_cadence",
           result := .reservoirDue days_since_change max_days grow_phase,
           action := .val (.reservoirChange
             (.reservoirChangeReason grow_phase days_since_change)) }
  else
    some { rule := "reservoir_check",
           result := .reservoirOK days_since_change max_days grow_phase,
           action := .absent }

/-- The `should_freeze` boolean of `_check_freeze_status`:
`health_7day >= 0.95 and ph_in_spec >= 95 and ec_in_spec >= 95`
(the 95 is `thresholds['stability_threshold'] * 100`). -/
def should_freeze (trends : Trends) : Bool :=
  decide (trends.health_7day_avg.getD 0 ≥ 0.95 ∧
    trends.ph_in_spec_7day.getD 0 ≥ 0.95 * 100 ∧
    trends.ec_in_spec_7day.getD 0 ≥ 0.95 * 100)

/-- `RulesEngine._check_freeze_status`; `freeze_until` is
`utcnow() + timedelta(days=14)` when freezing. -/
def check_freeze_status (trends : Trends) (now : ℕ) : FreezeStatus :=
  { frozen := should_freeze trends,
    reason := .freezeReason (trends.health_7day_avg.getD 0)
      (trends.ph_in_spec_7day.getD 0) (trends.ec_in_spec_7day.getD 0),
    freeze_until := if should_freeze trends then some (now + 14) else none }

/-- `RulesEngine._check_rollback_required`: health below the hard-coded
0.6 threshold triggers a rollback recommendation. -/
def check_rollback_required (current_kpis : CurrentKpis) : RollbackStatus :=
  let health_score := current_kpis.health_score.getD 1.0
  if health_score < 0.6 then
    { required := true, reason := some (.rollbackDegradation health_score),
      rollback_to := some "previous_stable_config" }
  else { required := false, reason := none, rollback_to := none }

/-- The no-op finding appended when the system is frozen; its `"action"`
key holds the string `"none"`. -/
def freeze_check_finding : Finding :=
  { rule := "freeze_check", result := .freezeNoOp, action := .noneStr }

/-- Python-dict insertion (overwrite in place if the key exists, append
otherwise). -/
def dict_insert (l : List (String × AVal)) (k : String) (v : AVal) :
    List (String × AVal) :=
  if l.any (fun p => p.1 = k) then
    l.map (fun p => if p.1 = k then (k, v) else p)
  else l ++ [(k, v)]

/-- `if "action" in finding: recommendations["actions"][key] = finding["action"]`. -/
def add_action (acts : List (String × AVal)) (key : String)
    (fa : ActionField) : List (String × AVal) :=
  match fa with
  | .absent => acts
  | .pynone => dict_insert acts key .pynone
  | .noneStr => dict_insert acts key .noneStr
  | .val a => dict_insert acts key (.act a)

/-- The accumulation of `rule_evaluations` and `actions` over the
pH / EC / environmental / reservoir evaluators, in the order of
`evaluate_rules` (each environmental action is keyed by its
`action.get("type", "environmental")`). -/
def run_adjustment_rules (cfg : Config) (sensor_data : SensorData)
    (current_kpis : CurrentKpis) (trends : Trends) :
    List Finding × List (String × AVal) :=
  let s0 : List Finding × List (String × AVal) := ([], [])
  let s1 := match evaluate_ph_rules cfg sensor_data trends with
    | none => s0
    | some f => (s0.1 ++ [f], add_action s0.2 "ph_adjustment" f.action)
  let s2 := match evaluate_ec_rules cfg sensor_data trends current_kpis with
    | none => s1
    | some f => (s1.1 ++ [f], add_action s1.2 "ec_adjustment" f.action)
  let s3 :=
    let env_actions := evaluate_environmental_rules cfg sensor_data
    (s2.1 ++ env_actions,
     env_actions.foldl
       (fun acc f => add_action acc (f.ftype.getD "environmental") f.action)
       s2.2)
  match evaluate_reservoir_rules cfg current_kpis with
  | none => s3
  | some f => (s3.1 ++ [f], add_action s3.2 "reservoir" f.action)

/-- The recommendations dictionary returned by `evaluate_rules`
(`timestamp` is the explicit clock). -/
structure Recommendations where
  timestamp : ℕ
  rule_evaluations : List Finding
  actions : List (String × AVal)
  freeze_status : FreezeStatus
  rollback_required : RollbackStatus
deriving DecidableEq

/-- `RulesEngine.evaluate_rules`: the freeze gate returns first with only
the no-op finding; otherwise the rollback gate returns with only the
rollback action; otherwise the adjustment rules run. -/
def evaluate_rules (cfg : Config) (now : ℕ) (sensor_data : SensorData)
    (current_kpis : CurrentKpis) (trends : Trends) : Recommendations :=
  if (check_freeze_status trends now).frozen then
    { timestamp := now,
      rule_evaluations := [freeze_check_finding],
      actions := [],
      freeze_status := check_freeze_status trends now,
      rollback_required := check_rollback_required current_kpis }
  else if (check_rollback_required current_kpis).required then
    { timestamp := now,
      rule_evaluations := [],
      actions := [("rollback", .rollback (check_rollback_required current_kpis))],
      freeze_status := check_freeze_status trends now,
      rollback_required := check_rollback_required current_kpis }
  else
    let s := run_adjustment_rules cfg sensor_data current_kpis trends
    { timestamp := now,
      rule_evaluations := s.1,
      actions := s.2,
      freeze_status := check_freeze_status trends now,
      rollback_required := check_rollback_required current_kpis }

/-! ## Claim C2 -/

/-- C2 counterexample: with current health 0.5 (rollback condition holds)
and 7-day trends health 0.95, pH/EC in-spec 95% (freeze condition holds),
`evaluate_rules` returns the frozen no-op finding and an empty actions
map — not the rollback action — refuting the claim that the rollback
gate takes precedence. -/
theorem c2_rollback_precedence_counterexample :
    (evaluate_rules {} 0 {} { health_score := some 0.5 }
      { ph_in_spec_7day := some 95, ec_in_spec_7day := some 95,
        health_7day_avg := some 0.95 }).rule_evaluations =
      [freeze_check_finding] ∧
    (evaluate_rules {} 0 {} { health_score := some 0.5 }
      { ph_in_spec_7day := some 95, ec_in_spec_7day := some 95,
        health_7day_avg := some 0.95 }).actions = [] ∧
    (evaluate_rules {} 0 {} { health_score := some 0.5 }
      { ph_in_spec_7day := some 95, ec_in_spec_7day := some 95,
        health_7day_avg := some 0.95 }).rollback_required.required = true := by
  have hfz : should_freeze
      { ph_in_spec_7day := some 95, ec_in_spec_7day := some 95,
        health_7day_avg := some 0.95 } = true := by
    simp only [should_freeze, Option.getD_some, decide_eq_true_eq]
    norm_num
  have hrb : (check_rollback_required { health_score := some 0.5 }).required
      = true := by
    simp only [check_rollback_required, Option.getD_some]
    rw [if_pos (by norm_num)]
  refine ⟨?_, ?_, ?_⟩ <;>
    simp [evaluate_rules, check_freeze_status, hfz, hrb]

/-- C2 (amended): the freeze gate is evaluated first and takes
precedence: whenever both the freeze condition and the rollback
condition hold, the result carries only the frozen no-op finding, an
empty actions map (in particular no rollback action), with
`freeze_status.frozen = true` while `rollback_required.required = true`
is still recorded. -/
theorem c2_freeze_gate_precedence (cfg : Config) (now : ℕ)
    (sensor_data : SensorData) (current_kpis : CurrentKpis) (trends : Trends)
    (hfreeze : should_freeze trends = true)
    (hroll : current_kpis.health_score.getD 1.0 < 0.6) :
    (evaluate_rules cfg now sensor_data current_kpis trends).rule_evaluations =
      [freeze_check_finding] ∧
    (evaluate_rules cfg now sensor_data current_kpis trends).actions = [] ∧
    (evaluate_rules cfg now sensor_data current_kpis trends).freeze_status.frozen
      = true ∧
    (evaluate_rules cfg now sensor_data current_kpis trends).rollback_required.required
      = true := by
  have hrb : (check_rollback_required current_kpis).required = true := by
    simp only [check_rollback_required]
    rw [if_pos hroll]
  refine ⟨?_, ?_, ?_, ?_⟩ <;>
    simp [evaluate_rules, check_freeze_status, hfreeze, hrb]

/-- C2 amended witness: the concrete both-gates input. -/
theorem c2_freeze_gate_precedence_witness :
    (evaluate_rules {} 3 {} { health_score := some 0.55 }
      { ph_in_spec_7day := some 96, ec_in_spec_7day := some 97,
        health_7day_avg := some 0.96 }).rule_evaluations =
      [freeze_check_finding] ∧
    (evaluate_rules {} 3 {} { health_score := some 0.55 }
      { ph_in_spec_7day := some 96, ec_in_spec_7day := some 97,
        health_7day_avg := some 0.96 }).actions = [] := by
  have h := c2_freeze_gate_precedence {} 3 {} { health_score := some 0.55 }
    { ph_in_spec_7day := some 96, ec_in_spec_7day := some 97,
      health_7day_avg := some 0.96 }
    (by simp only [should_freeze, Option.getD_some, decide_eq_true_eq]; norm_num)
    (by simp only [Option.getD_some]; norm_num)
  exact ⟨h.1, h.2.1⟩

/-! ## Claim C8 -/

/-- C8 counterexample: with the freeze condition holding, two
evaluations at different wall-clock instants return different
`freeze_status` dictionaries (`freeze_until` is derived from the
clock), refuting strict identity of the freeze status across the two
calls. -/
theorem c8_freeze_until_clock_counterexample :
    (evaluate_rules {} 0 {} {}
      { ph_in_spec_7day := some 95, ec_in_spec_7day := some 95,
        health_7day_avg := some 0.95 }).freeze_status ≠
    (evaluate_rules {} 1 {} {}
      { ph_in_spec_7day := some 95, ec_in_spec_7day := some 95,
        health_7day_avg := some 0.95 }).freeze_status := by
  have hfz : should_freeze
      { ph_in_spec_7day := some 95, ec_in_spec_7day := some 95,
        health_7day_avg := some 0.95 } = true := by
    simp only [should_freeze, Option.getD_some, decide_eq_true_eq]
    norm_num
  intro h
  have := congrArg FreezeStatus.freeze_until h
  simp [evaluate_rules, check_freeze_status, hfz] at this

/-- C8 (amended): `evaluate_rules` is deterministic in everything except
the wall-clock-derived fields.  For identical sensor data, KPIs, trends
and configuration, two evaluations at arbitrary clock instants agree on
`rule_evaluations`, `actions`, the entire rollback status, the frozen
flag, and the freeze reason; only the result `timestamp` and (when
frozen) `freeze_status.freeze_until` depend on the clock. -/
theorem c8_deterministic_modulo_clock (cfg : Config) (now₁ now₂ : ℕ)
    (sensor_data : SensorData) (current_kpis : CurrentKpis)
    (trends : Trends) :
    (evaluate_rules cfg now₁ sensor_data current_kpis trends).rule_evaluations =
      (evaluate_rules cfg now₂ sensor_data current_kpis trends).rule_evaluations ∧
    (evaluate_rules cfg now₁ sensor_data current_kpis trends).actions =
      (evaluate_rules cfg now₂ sensor_data current_kpis trends).actions ∧
    (evaluate_rules cfg now₁ sensor_data current_kpis trends).rollback_required =
      (evaluate_rules cfg now₂ sensor_data current_kpis trends).rollback_required ∧
    (evaluate_rules cfg now₁ sensor_data current_kpis trends).freeze_status.frozen =
      (evaluate_rules cfg now₂ sensor_data current_kpis trends).freeze_status.frozen ∧
    (evaluate_rules cfg now₁ sensor_data current_kpis trends).freeze_status.reason =
      (evaluate_rules cfg now₂ sensor_data current_kpis trends).freeze_status.reason := by
  by_cases hf : should_freeze trends
  · refine ⟨?_, ?_, ?_, ?_, ?_⟩ <;>
      simp [evaluate_rules, check_freeze_status, hf]
  · by_cases hr : (check_rollback_required current_kpis).required
    · refine ⟨?_, ?_, ?_, ?_, ?_⟩ <;>
        simp [evaluate_rules, check_freeze_status, hf, hr]
    · refine ⟨?_, ?_, ?_, ?_, ?_⟩ <;>
        simp [evaluate_rules, check_freeze_status, hf, hr]

/-! ## The stability filter (`RulesEngine.apply_stable_unless_better_logic`)

The filter consumes a Python dict mapping action-type keys to values; it
treats the `"dose"` key specially and passes every other entry through
unchanged.  We model dict entries as an association list preserving
insertion order. -/

/-- An entry of a dose dictionary as inspected by the filter: either a
dict with an `"ml"` key (and reason), or any other value — for example
the dose dict's own `"type": "dose"` tag — which the scaling branch
silently drops (`isinstance(dose_data, dict) and 'ml' in dose_data`). -/
inductive DoseEntryV
  | withMl (ml : ℚ) (reason : Narr)
  | noMl (tag : String)
deriving DecidableEq

/-- The pass-through values of the combined-decisions dict (never
inspected by the filter). -/
inductive OtherV
  | timestampV (t : ℕ)
  | sources (rules llm : Bool)
  | narr (n : Narr)
  | num (q : ℚ)
  | boolV (b : Bool)
  | fanCtl (fan_speed : ℤ) (duration_minutes : Option ℚ) (reason : Narr)
  | ledCtl (led_power : ℤ) (reason : Narr)
  | cfgChange (ec_target : ℚ) (reason : Narr)
  | resChange (reason : Narr)
  | llmPayload (tag : String)
  | noneV
  | rollbackV (r : RollbackStatus)
deriving DecidableEq

/-- A value of the proposed-actions dict consumed by
`apply_stable_unless_better_logic`. -/
inductive PAVal
  | doseDict (entries : List (String × DoseEntryV))
  | other (o : OtherV)
deriving DecidableEq

/-- Whether a `PAVal` is not a dose dictionary (calling `.items()` on it
would raise). -/
def pav_is_other : PAVal → Bool
  | .doseDict _ => false
  | .other _ => true

/-- The scaling loop of a dose dictionary:
`for pump, dose_data in action_data.items(): if isinstance(dose_data, dict)
and 'ml' in dose_data: filtered[pump] = {'ml': round(ml * factor, 1), …}` —
entries without an `ml` field are dropped, kept entries get the wrapped
reason. -/
def dose_entry_scale (factor : ℚ) (wrap : Narr → Narr)
    (entries : List (String × DoseEntryV)) : List (String × DoseEntryV) :=
  entries.filterMap (fun p =>
    match p.2 with
    | .withMl ml reason =>
      some (p.1, .withMl (round1 (ml * factor)) (wrap reason))
    | .noMl _ => none)

/-- The result dict of `apply_stable_unless_better_logic`.
`reason_health` is the health score interpolated into the reason string;
`err = true` models the `except`-path result
`{"filtered_actions": proposed, "stability_factor": 1.0, "error": …}`
(reachable only when a `"dose"` value is not a dict), in which case
`reason_health` carries no information. -/
structure FilteredResult where
  filtered_actions : List (String × PAVal)
  stability_factor : ℚ
  reason_health : ℚ
  err : Bool := false
deriving DecidableEq

/-- `RulesEngine.apply_stable_unless_better_logic(proposed_actions,
current_performance)`. -/
def apply_stable_unless_better_logic
    (proposed_actions : List (String × PAVal))
    (current_performance : CurrentKpis) : FilteredResult :=
  let health_score := current_performance.health_score.getD 0.8
  let dose_not_dict := proposed_actions.any (fun p =>
    p.1 == "dose" && pav_is_other p.2)
  if health_score > 0.9 then
    if dose_not_dict then
      { filtered_actions := proposed_actions, stability_factor := 1.0,
        reason_health := health_score, err := true }
    else
      { filtered_actions := proposed_actions.map (fun p =>
          if p.1 = "dose" then
            (p.1, match p.2 with
              | .doseDict entries =>
                PAVal.doseDict (dose_entry_scale 0.5 .reducedDose entries)
              | .other o => .other o)
          else p),
        stability_factor := 0.5, reason_health := health_score }
  else if health_score > 0.8 then
    if dose_not_dict then
      { filtered_actions := proposed_actions, stability_factor := 1.0,
        reason_health := health_score, err := true }
    else
      { filtered_actions := proposed_actions.map (fun p =>
          if p.1 = "dose" then
            (p.1, match p.2 with
              | .doseDict entries =>
                PAVal.doseDict (dose_entry_scale 0.8 .slightlyReducedDose entries)
              | .other o => .other o)
          else p),
        stability_factor := 0.8, reason_health := health_score }
  else
    { filtered_actions := proposed_actions, stability_factor := 1.0,
      reason_health := health_score }

/-! ## Claim C5 -/

/-- C5 counterexample: at `health_score = 0.95` a 0.25 ml dose is scaled
to `round(0.125, 1) = 0.1` ml, not to `0.125` ml — the filter rounds the
scaled volume to one decimal, so the `ml` field is not exactly
`ml * factor` in general. -/
theorem c5_exact_scaling_counterexample :
    (apply_stable_unless_better_logic
      [("dose", .doseDict [("pump_a", .withMl 0.25 (.text "r"))])]
      { health_score := some 0.95 }).filtered_actions =
      [("dose", .doseDict [("pump_a", .withMl 0.1 (.reducedDose (.text "r")))])] ∧
    (0.1 : ℚ) ≠ 0.25 * 0.5 := by
  constructor
  · have hr : round1 ((0.25 : ℚ) * 0.5) = 0.1 := by
      rw [round1, show ((0.25 : ℚ) * 0.5) * 10 = ((1 : ℤ) : ℚ) + 1/4 by norm_num,
        show rhe (((1 : ℤ) : ℚ) + 1/4) = 1 from
          rhe_down (by norm_num) (by norm_num)]
      norm_num
    simp only [apply_stable_unless_better_logic, Option.getD_some]
    rw [if_pos (by norm_num), if_neg (by simp [pav_is_other])]
    simp [dose_entry_scale, hr]
  · norm_num

/-- C5 (amended): the stability factor is a function of `health_score`
alone (0.5 above 0.9, 0.8 on (0.8, 0.9], 1.0 at or below 0.8); in the
scaling branches every dose entry's `ml` becomes
`round(ml * factor, 1)` — the scaled volume rounded half-to-even to one
decimal — while every non-dose entry passes through unchanged; at or
below 0.8 the whole action set passes through unchanged.  In particular
a 10 ml dose at `health_score = 0.95` becomes exactly 5.0 ml, and at
`health_score = 0.6` it is unchanged. -/
theorem c5_dose_scaling_amended (proposed : List (String × PAVal)) (kq : ℚ)
    (hd : ∀ p ∈ proposed, p.1 = "dose" → pav_is_other p.2 = false) :
    ((kq > 0.9 →
      (apply_stable_unless_better_logic proposed
        { health_score := some kq }).stability_factor = 0.5) ∧
     (0.8 < kq ∧ kq ≤ 0.9 →
      (apply_stable_unless_better_logic proposed
        { health_score := some kq }).stability_factor = 0.8) ∧
     (kq ≤ 0.8 →
      (apply_stable_unless_better_logic proposed
        { health_score := some kq }).stability_factor = 1 ∧
      (apply_stable_unless_better_logic proposed
        { health_score := some kq }).filtered_actions = proposed)) ∧
    (∀ p ∈ proposed, p.1 ≠ "dose" →
      p ∈ (apply_stable_unless_better_logic proposed
        { health_score := some kq }).filtered_actions) ∧
    (0.8 < kq → ∀ entries pump ml reason,
      ("dose", PAVal.doseDict entries) ∈ proposed →
      (pump, DoseEntryV.withMl ml reason) ∈ entries →
      ∃ e' reason',
        ("dose", PAVal.doseDict e') ∈ (apply_stable_unless_better_logic proposed
          { health_score := some kq }).filtered_actions ∧
        (pump, DoseEntryV.withMl
          (round1 (ml * (apply_stable_unless_better_logic proposed
            { health_score := some kq }).stability_factor)) reason') ∈ e') ∧
    (apply_stable_unless_better_logic
      [("dose", .doseDict [("ph_pump", .withMl 10 (.text "x"))])]
      { health_score := some 0.95 }).filtered_actions =
      [("dose", .doseDict [("ph_pump", .withMl 5 (.reducedDose (.text "x")))])] ∧
    (apply_stable_unless_better_logic
      [("dose", .doseDict [("ph_pump", .withMl 10 (.text "x"))])]
      { health_score := some 0.6 }).filtered_actions =
      [("dose", .doseDict [("ph_pump", .withMl 10 (.text "x"))])] := by
  have hdd : (proposed.any fun p => p.1 == "dose" && pav_is_other p.2) = false := by
    rw [List.any_eq_false]
    intro p hp
    by_cases hkey : p.1 = "dose"
    · simp [hkey, hd p hp hkey]
    · simp [hkey]
  have hanchor1 : (apply_stable_unless_better_logic
      [("dose", .doseDict [("ph_pump", .withMl 10 (.text "x"))])]
      { health_score := some 0.95 }).filtered_actions =
      [("dose", .doseDict [("ph_pump", .withMl 5 (.reducedDose (.text "x")))])] := by
    have hr : round1 ((10 : ℚ) * 0.5) = 5 := by
      rw [round1, show ((10 : ℚ) * 0.5) * 10 = ((50 : ℤ) : ℚ) by norm_num,
        rhe_intCast]
      norm_num
    simp only [apply_stable_unless_better_logic, Option.getD_some]
    rw [if_pos (by norm_num), if_neg (by simp [pav_is_other])]
    simp [dose_entry_scale, hr]
  have hanchor2 : (apply_stable_unless_better_logic
      [("dose", .doseDict [("ph_pump", .withMl 10 (.text "x"))])]
      { health_score := some 0.6 }).filtered_actions =
      [("dose", .doseDict [("ph_pump", .withMl 10 (.text "x"))])] := by
    simp only [apply_stable_unless_better_logic, Option.getD_some]
    rw [if_neg (by norm_num), if_neg (by norm_num)]
  by_cases h09 : kq > 0.9
  · have heq : apply_stable_unless_better_logic proposed
        { health_score := some kq } =
        { filtered_actions := proposed.map (fun p =>
            if p.1 = "dose" then
              (p.1, match p.2 with
                | PAVal.doseDict entries =>
                  PAVal.doseDict (dose_entry_scale 0.5 Narr.reducedDose entries)
                | PAVal.other o => PAVal.other o)
            else p),
          stability_factor := 0.5, reason_health := kq } := by
      simp only [apply_stable_unless_better_logic, Option.getD_some]
      rw [if_pos h09, if_neg (by simp [hdd])]
    refine ⟨⟨fun _ => by rw [heq], fun hc => absurd h09 (not_lt.mpr hc.2),
      fun hc => absurd (lt_trans (by norm_num) h09) (not_lt.mpr hc)⟩,
      ?_, ?_, hanchor1, hanchor2⟩
    · intro p hp hkey
      rw [heq]
      exact List.mem_map.mpr ⟨p, hp, by simp [hkey]⟩
    · intro _ entries pump ml reason hmem hentry
      refine ⟨dose_entry_scale 0.5 Narr.reducedDose entries,
        Narr.reducedDose reason, ?_, ?_⟩
      · rw [heq]
        exact List.mem_map.mpr ⟨("dose", PAVal.doseDict entries), hmem, by simp⟩
      · rw [heq]
        exact List.mem_filterMap.mpr ⟨(pump, .withMl ml reason), hentry, rfl⟩
  · by_cases h08 : kq > 0.8
    · have heq : apply_stable_unless_better_logic proposed
          { health_score := some kq } =
          { filtered_actions := proposed.map (fun p =>
              if p.1 = "dose" then
                (p.1, match p.2 with
                  | PAVal.doseDict entries =>
                    PAVal.doseDict (dose_entry_scale 0.8 Narr.slightlyReducedDose entries)
                  | PAVal.other o => PAVal.other o)
              else p),
            stability_factor := 0.8, reason_health := kq } := by
        simp only [apply_stable_unless_better_logic, Option.getD_some]
        rw [if_neg h09, if_pos h08, if_neg (by simp [hdd])]
      refine ⟨⟨fun hc => absurd hc h09, fun _ => by rw [heq],
        fun hc => absurd h08 (not_lt.mpr hc)⟩, ?_, ?_, hanchor1, hanchor2⟩
      · intro p hp hkey
        rw [heq]
        exact List.mem_map.mpr ⟨p, hp, by simp [hkey]⟩
      · intro _ entries pump ml reason hmem hentry
        refine ⟨dose_entry_scale 0.8 Narr.slightlyReducedDose entries,
          Narr.slightlyReducedDose reason, ?_, ?_⟩
        · rw [heq]
          exact List.mem_map.mpr ⟨("dose", PAVal.doseDict entries), hmem, by simp⟩
        · rw [heq]
          exact List.mem_filterMap.mpr ⟨(pump, .withMl ml reason), hentry, rfl⟩
    · have heq : apply_stable_unless_better_logic proposed
          { health_score := some kq } =
          { filtered_actions := proposed, stability_factor := 1.0,
            reason_health := kq } := by
        simp only [apply_stable_unless_better_logic, Option.getD_some]
        rw [if_neg h09, if_neg h08]
      refine ⟨⟨fun hc => absurd hc h09, fun hc => absurd hc.1 h08,
        fun _ => by rw [heq]; exact ⟨by norm_num, rfl⟩⟩, ?_, ?_,
        hanchor1, hanchor2⟩
      · intro p hp _
        rw [heq]
        exact hp
      · intro hc
        exact absurd hc h08

/-- C5 amended witness: the 10 ml anchor scaled at `health = 0.95`,
obtained by instantiating the amended theorem. -/
theorem c5_dose_scaling_amended_witness :
    (apply_stable_unless_better_logic
      [("dose", .doseDict [("ph_pump", .withMl 10 (.text "x"))])]
      { health_score := some 0.95 }).stability_factor = 0.5 ∧
    (apply_stable_unless_better_logic
      [("dose", .doseDict [("ph_pump", .withMl 10 (.text "x"))])]
      { health_score := some 0.95 }).filtered_actions =
      [("dose", .doseDict [("ph_pump", .withMl 5 (.reducedDose (.text "x")))])] := by
  have h := c5_dose_scaling_amended
    [("dose", .doseDict [("ph_pump", .withMl 10 (.text "x"))])] 0.95
    (by intro p hp _; simp at hp; rw [hp]; rfl)
  exact ⟨h.1.1 (by norm_num), h.2.2.2.1⟩

/-! ## The decision combination step (`scripts/control_loop.py`) -/

/-- The LLM decision payload consumed by `_combine_decisions`:
`llm_result` may be absent or carry an `"error"` key; its `decisions`
dict may carry dose / fan / led / heater suggestions.  Fan, LED and
heater payloads are opaque to the combiner and the filter. -/
structure LLMResult where
  isError : Bool := false
  dose : Option (List (String × DoseEntryV)) := none
  fan : Option String := none
  led : Option String := none
  heater : Option String := none
  reasoning : Option String := none
  confidence : Option ℚ := none
deriving DecidableEq

/-- Python-dict insertion on the combined-decisions dict. -/
def dict_insert_pa (l : List (String × PAVal)) (k : String) (v : PAVal) :
    List (String × PAVal) :=
  if l.any (fun p => p.1 = k) then
    l.map (fun p => if p.1 = k then (k, v) else p)
  else l ++ [(k, v)]

/-- `key in rules_actions`. -/
def has_key (l : List (String × AVal)) (k : String) : Bool :=
  l.any (fun p => p.1 == k)

/-- Whether a stored rules-action value is Python `None` (the stable-pH
finding's action). -/
def aval_is_pynone : AVal → Bool
  | .pynone => true
  | _ => false

/-- `ControlLoop._combine_decisions(rules_result, llm_result)`.  The
explicit clock provides the `"timestamp"` entry.

The Python loop over `rules_actions.items()` guards each branch with
`action_type == <key> and 'action' in action_data`; since no action
dictionary built by the rule evaluators contains an `"action"` key, the
membership test is false whenever it runs on a dict, so the loop bodies
that would copy rule actions into `combined` are dead code — but the
test raises `TypeError` when `action_data` is `None` (the stable-pH
finding stores `None` under `"ph_adjustment"`), aborting the whole
combination; that is the `throw` case.  Finally
`rollback_required.required` collapses the dict to the emergency
entries (a missing rollback reason would raise `KeyError`). -/
def combine_decisions (now : ℕ) (rules_result : Recommendations)
    (llm_result : Option LLMResult) : Except Unit (List (String × PAVal)) :=
  let llm_ok : Bool := match llm_result with
    | some l => !l.isError
    | none => false
  let base : List (String × PAVal) :=
    [("timestamp", .other (.timestampV now)),
     ("sources", .other (.sources true llm_ok))]
  let rules_actions := rules_result.actions
  let with_llm : List (String × PAVal) :=
    match llm_result with
    | some l =>
      if !l.isError then
        let d1 := match l.dose with
          | some d =>
            if !(has_key rules_actions "ph_adjustment" ||
                 has_key rules_actions "ec_adjustment") then
              dict_insert_pa
                (dict_insert_pa base "dose" (.doseDict d))
                "dose_reason"
                (.other (.narr (.text (l.reasoning.getD "LLM decision"))))
            else base
          | none => base
        let d2 := match l.fan with
          | some payload =>
            if !(rules_actions.any (fun p => p.1.startsWith "fan")) then
              dict_insert_pa d1 "fan" (.other (.llmPayload payload))
            else d1
          | none => d1
        let d3 := match l.led with
          | some payload =>
            if !(rules_actions.any (fun p => p.1.startsWith "led")) then
              dict_insert_pa d2 "led" (.other (.llmPayload payload))
            else d2
          | none => d2
        let d4 := match l.heater with
          | some payload =>
            if !(rules_actions.any (fun p => p.1.startsWith "heater")) then
              dict_insert_pa d3 "heater" (.other (.llmPayload payload))
            else d3
          | none => d3
        dict_insert_pa d4 "llm_confidence" (.other (.num (l.confidence.getD 0.5)))
      else base
    | none => base
  if rules_actions.any (fun p =>
      (p.1 == "ph_adjustment" || p.1 == "ec_adjustment" ||
       p.1 == "fan" || p.1 == "led") && aval_is_pynone p.2) then
    throw ()
  else if rules_result.rollback_required.required then
    match rules_result.rollback_required.reason with
    | some reason =>
      Except.ok [("emergency_rollback", .other (.boolV true)),
        ("rollback_reason", .other (.narr reason)),
        ("timestamp", .other (.timestampV now))]
    | none => throw ()
  else Except.ok with_llm

/-- Steps 5 and 6 of `ControlLoop.run_control_cycle`: first
`_combine_decisions(rules_result, llm_result)`, then
`apply_stable_unless_better_logic(combined_decisions, current_kpis)`. -/
def run_cycle_decision (now : ℕ) (rules_result : Recommendations)
    (llm_result : Option LLMResult) (current_kpis : CurrentKpis) :
    Except Unit FilteredResult :=
  match combine_decisions now rules_result llm_result with
  | .ok combined_decisions =>
    .ok (apply_stable_unless_better_logic combined_decisions current_kpis)
  | .error e => .error e

/-- Modelled from the spec: the rendering of the rule engine's stored
candidate actions into the dict shape the StabilityFilter consumes,
needed to express the spec's claimed pipeline (§2 data flow).  A dose
action is the dict `{"type": "dose", pump: {"ml":…, "reason":…}, …}`;
all other values are opaque to the filter. -/
def rule_actions_as_paval : AVal → PAVal
  | .pynone => .other .noneV
  | .noneStr => .other (.llmPayload "none")
  | .act (.dose entries) =>
    .doseDict (("type", DoseEntryV.noMl "dose") ::
      entries.map (fun e => (e.1, DoseEntryV.withMl e.2.1 e.2.2)))
  | .act (.fanControl s d r) => .other (.fanCtl s d r)
  | .act (.ledControl p r) => .other (.ledCtl p r)
  | .act (.configChange t r) => .other (.cfgChange t r)
  | .act (.reservoirChange r) => .other (.resChange r)
  | .rollback r => .other (.rollbackV r)

/-- Modelled from the spec: `DecisionCombiner.merge(filtered, advisory)`
per §4.5 — advisory dosing is used only if the rule engine produced no
dosing action; advisory fan/led/heater suggestions are accepted only if
the rule engine made no decision on that channel; an emergency-rollback
flag collapses the output to a single emergency action. -/
def spec_merge (filtered : List (String × PAVal)) (llm : Option LLMResult)
    (rollback : RollbackStatus) : List (String × PAVal) :=
  if rollback.required then
    [("emergency_rollback", .other (.boolV true))]
  else
    let rule_has_dose := filtered.any (fun p => !(pav_is_other p.2))
    match llm with
    | none => filtered
    | some l =>
      if l.isError then filtered
      else
        let d1 := match l.dose with
          | some d =>
            if !rule_has_dose then dict_insert_pa filtered "dose" (.doseDict d)
            else filtered
          | none => filtered
        let d2 := match l.fan with
          | some payload =>
            if !(filtered.any (fun p => p.1.startsWith "fan")) then
              dict_insert_pa d1 "fan" (.other (.llmPayload payload))
            else d1
          | none => d1
        let d3 := match l.led with
          | some payload =>
            if !(filtered.any (fun p => p.1.startsWith "led")) then
              dict_insert_pa d2 "led" (.other (.llmPayload payload))
            else d2
          | none => d2
        match l.heater with
        | some payload =>
          if !(filtered.any (fun p => p.1.startsWith "heater")) then
            dict_insert_pa d3 "heater" (.other (.llmPayload payload))
          else d3
        | none => d3

/-- Modelled from the spec: the claimed pipeline of §2's data flow —
`StabilityFilter.apply` on the rule engine's candidate actions first,
then `DecisionCombiner.merge` of the filtered actions with the advisory
signal. -/
def spec_claimed_pipeline (rules_result : Recommendations)
    (llm_result : Option LLMResult) (current_kpis : CurrentKpis) :
    List (String × PAVal) :=
  let rule_dict := rules_result.actions.map
    (fun p => (p.1, rule_actions_as_paval p.2))
  let filtered := apply_stable_unless_better_logic rule_dict current_kpis
  spec_merge filtered.filtered_actions llm_result rules_result.rollback_required

/-! ## Claim C3 -/

/-- The concrete rules result of the C3 counterexample: no candidate
actions, no rollback. -/
def c3_empty_rules_result : Recommendations :=
  { timestamp := 0
    rule_evaluations := []
    actions := []
    freeze_status := { frozen := false, reason := .freezeReason 0 0 0,
                       freeze_until := none }
    rollback_required := { required := false, reason := none,
                           rollback_to := none } }

/-- The concrete advisory input of the C3 counterexample: a 10 ml
advisory dose on `pump_a`. -/
def c3_advisory : LLMResult :=
  { dose := some [("pump_a", .withMl 10 (.text "LLM"))]
    reasoning := some "levels low"
    confidence := some 0.9 }

/-- C3 counterexample: with no rule actions, an advisory dose of 10 ml
and `health_score = 0.95`, the control loop's decision step yields a
5.0 ml dose (the filter runs after the merge and scales the advisory
dose), while the spec's claimed pipeline — filter first, then merge —
yields the advisory dose unscaled at 10 ml.  The final action set of
the cycle therefore does not equal
`DecisionCombiner.merge(StabilityFilter.apply(rule_actions), advisory)`. -/
theorem c3_filter_before_merge_counterexample :
    (match run_cycle_decision 0 c3_empty_rules_result (some c3_advisory)
        { health_score := some 0.95 } with
      | .ok fr => fr.filtered_actions.lookup "dose"
      | .error _ => none) =
      some (PAVal.doseDict
        [("pump_a", .withMl 5 (.reducedDose (.text "LLM")))]) ∧
    (spec_claimed_pipeline c3_empty_rules_result (some c3_advisory)
        { health_score := some 0.95 }).lookup "dose" =
      some (PAVal.doseDict [("pump_a", .withMl 10 (.text "LLM"))]) ∧
    (5 : ℚ) ≠ 10 := by
  have hr5 : round1 ((10 : ℚ) * 0.5) = 5 := by
    rw [round1, show ((10 : ℚ) * 0.5) * 10 = ((50 : ℤ) : ℚ) by norm_num,
      rhe_intCast]
    norm_num
  have hcomb : combine_decisions 0 c3_empty_rules_result (some c3_advisory) =
      Except.ok
        [("timestamp", .other (.timestampV 0)),
         ("sources", .other (.sources true true)),
         ("dose", .doseDict [("pump_a", .withMl 10 (.text "LLM"))]),
         ("dose_reason", .other (.narr (.text "levels low"))),
         ("llm_confidence", .other (.num 0.9))] := rfl
  have hfilter : apply_stable_unless_better_logic
      [("timestamp", .other (.timestampV 0)),
       ("sources", .other (.sources true true)),
       ("dose", .doseDict [("pump_a", .withMl 10 (.text "LLM"))]),
       ("dose_reason", .other (.narr (.text "levels low"))),
       ("llm_confidence", .other (.num 0.9))]
      { health_score := some 0.95 } =
      { filtered_actions :=
          [("timestamp", .other (.timestampV 0)),
           ("sources", .other (.sources true true)),
           ("dose", .doseDict
             [("pump_a", .withMl 5 (.reducedDose (.text "LLM")))]),
           ("dose_reason", .other (.narr (.text "levels low"))),
           ("llm_confidence", .other (.num 0.9))],
        stability_factor := 0.5, reason_health := 0.95 } := by
    simp only [apply_stable_unless_better_logic, Option.getD_some]
    rw [if_pos (by norm_num : (0.95 : ℚ) > 0.9), if_neg (by decide)]
    simp only [List.map_cons, List.map_nil, String.reduceEq, reduceIte,
      dose_entry_scale, List.filterMap_cons, List.filterMap_nil, hr5]
  have hspecf : apply_stable_unless_better_logic []
      { health_score := some 0.95 } =
      { filtered_actions := [], stability_factor := 0.5,
        reason_health := 0.95 } := by
    simp only [apply_stable_unless_better_logic, Option.getD_some]
    rw [if_pos (by norm_num : (0.95 : ℚ) > 0.9), if_neg (by decide)]
    rfl
  refine ⟨?_, ?_, by norm_num⟩
  · simp only [run_cycle_decision, hcomb, hfilter]
    rfl
  · simp only [spec_claimed_pipeline, c3_empty_rules_result, List.map_nil,
      hspecf]
    rfl

/-- C3 (amended): the control loop merges first and filters second: for
every clock instant, rules result, advisory input and KPI snapshot, the
cycle's decision step equals `StabilityFilter.apply` composed after
`DecisionCombiner.merge` (the source's `_combine_decisions`), so the
stability filter also scales advisory doses and never sees the raw rule
actions. -/
theorem c3_merge_then_filter_amended (now : ℕ)
    (rules_result : Recommendations) (llm_result : Option LLMResult)
    (current_kpis : CurrentKpis) :
    run_cycle_decision now rules_result llm_result current_kpis =
      (combine_decisions now rules_result llm_result).map
        (fun combined =>
          apply_stable_unless_better_logic combined current_kpis) := by
  cases h : combine_decisions now rules_result llm_result <;>
    simp [run_cycle_decision, h, Except.map]
